import Mathlib

/-!
Shallow embedding of the exchange-wrapper layer of gocryptotrader
(`src/exchanges/localbitcoins/localbitcoins_wrapper.go`, which holds the
`LocalBitcoins` and `HUOBIHADAX` venue drivers, and the okex fee tests in
`src/exchanges/okex/okex_test.go`), together with theorems settling the
frozen claims about it.

Go `float64` values are modelled as `Rat` (all computations in the sources
are exact on the rationals), Go `int`/`int64` as `Int`, Go `error` values
as an explicit inductive type.  Functions that perform venue calls take the
venue responses as explicit arguments and, where a claim is about which
calls are issued, also return an explicit trace of the calls made.
-/

/-- A Go `error` value: the two sentinel errors of the `common` package that
the wrappers return, or an error created by `errors.New` / `fmt.Errorf`
carrying its message. -/
inductive GoError where
  | errNotYetImplemented : GoError
  | errFunctionNotSupported : GoError
  | mk (msg : String) : GoError
deriving DecidableEq, Repr

/-- The Go `err.Error()` message string of an error value. -/
def GoError.message : GoError → String
  | .errNotYetImplemented => "not yet implemented"
  | .errFunctionNotSupported => "function not supported"
  | .mk s => s

/-- `pair.CurrencyPair`: the first and second currency of a trading pair
(the delimiter and case formatting are immaterial to the claims). -/
structure CurrencyPair where
  firstCurrency : String
  secondCurrency : String
deriving DecidableEq, Repr

/-- `exchange.SubmitOrderResponse`: placed flag and venue order identifier. -/
structure SubmitOrderResponse where
  isOrderPlaced : Bool := false
  orderID : String := ""
deriving DecidableEq, Repr

namespace LocalBitcoins

/-- The fields of the `AdCreate` parameter struct that `SubmitOrder` fills in
(`localbitcoins_wrapper.go`, lines 228-246). -/
structure AdCreate where
  priceEquation : String := "USD_in_AUD"
  latitude : Int := 1
  longitude : Int := 1
  city : String := "City"
  location : String := "Location"
  countryCode : String := "US"
  currency : String
  accountInfo : String := "-"
  bankName : String := "Bank"
  msg : String
  smsVerficationRequired : Bool := true
  trackMaxAmount : Bool := true
  requireTrustedByAdvertiser : Bool := true
  requireIdentification : Bool := true
  onlineProvider : String := ""
  tradeType : String := ""
  minAmount : Int
deriving DecidableEq, Repr

/-- The fields of one ad's `Data` as returned by `Getads` that `SubmitOrder`
and `CancelAllOrders` read: the matched fields plus the ad identifier.
`Lat`/`Lon` are Go `float64`, `MinAmount` is a string in the response. -/
structure AdData where
  priceEquation : String
  lat : Rat
  lon : Rat
  city : String
  location : String
  countryCode : String
  currency : String
  accountInfo : String
  bankName : String
  smsVerficationRequired : Bool
  trackMaxAmount : Bool
  requireTrustedByAdvertiser : Bool
  onlineProvider : String
  tradeType : String
  minAmount : String
  adID : Int
deriving DecidableEq, Repr

/-- The field-by-field comparison of a listed ad against the submitted
parameters, exactly the conjunction at lines 262-276 of the wrapper
(`i.Data.MinAmount == fmt.Sprintf("%v", params.MinAmount)` compares the
response string against the printed integer). -/
def adMatches (params : AdCreate) (d : AdData) : Bool :=
  d.priceEquation == params.priceEquation &&
  d.lat == (params.latitude : Rat) &&
  d.lon == (params.longitude : Rat) &&
  d.city == params.city &&
  d.location == params.location &&
  d.countryCode == params.countryCode &&
  d.currency == params.currency &&
  d.accountInfo == params.accountInfo &&
  d.bankName == params.bankName &&
  d.smsVerficationRequired == params.smsVerficationRequired &&
  d.trackMaxAmount == params.trackMaxAmount &&
  d.requireTrustedByAdvertiser == params.requireTrustedByAdvertiser &&
  d.onlineProvider == params.onlineProvider &&
  d.tradeType == params.tradeType &&
  d.minAmount == toString params.minAmount

/-- The reconciliation loop of `SubmitOrder` (lines 259-279): `adID` starts
empty and is overwritten by `fmt.Sprintf("%v", i.Data.AdID)` at every
matching ad, so the last match wins. -/
def resolveAdID (params : AdCreate) (adList : List AdData) : String :=
  adList.foldl (fun acc i => if adMatches params i then toString i.adID else acc) ""

/-- `LocalBitcoins.SubmitOrder` (lines 224-288).  `createAdErr` is the result
of `CreateAd params`; `adList`/`getadsErr` are the `Getads()` response (the
loop ranges over whatever list came back, also when `Getads` errored, in
which case the zero-value struct carries an empty list). -/
def SubmitOrder (params : AdCreate) (createAdErr : Option GoError)
    (adList : List AdData) (getadsErr : Option GoError) :
    SubmitOrderResponse × Option GoError :=
  match createAdErr with
  | some e => ({ }, some e)
  | none =>
    let resp : SubmitOrderResponse := { isOrderPlaced := true }
    let adID := resolveAdID params adList
    if adID ≠ "" then ({ resp with orderID := adID }, getadsErr)
    else (resp, some (GoError.mk "Ad placed, but not found via API"))

end LocalBitcoins

/-- `exchange.CancelAllOrdersResponse`: the per-order-identifier status map,
modelled as the association list of insertions in program order. -/
structure CancelAllOrdersResponse where
  orderStatus : List (String × String) := []
deriving DecidableEq, Repr

namespace LocalBitcoins

/-- The cancellation loop of `LocalBitcoins.CancelAllOrders` (lines 311-317):
every listed ad's `DeleteAd` is attempted, a failure only adds an entry to
the status map.  Returns the status map together with the trace of ad
identifiers on which `DeleteAd` was called. -/
def cancelLoop (deleteAd : String → Option GoError) :
    List AdData → List (String × String) × List String
  | [] => ([], [])
  | ad :: rest =>
    let adIDString := toString ad.adID
    let (restStatus, restAttempts) := cancelLoop deleteAd rest
    match deleteAd adIDString with
    | some e => ((adIDString, e.message) :: restStatus, adIDString :: restAttempts)
    | none => (restStatus, adIDString :: restAttempts)

/-- `LocalBitcoins.CancelAllOrders` (lines 302-320).  `adList`/`getadsErr` are
the `Getads()` response; `deleteAd` gives each `DeleteAd` call's outcome.
The third component is the trace of attempted ad identifiers. -/
def CancelAllOrders (adList : List AdData) (getadsErr : Option GoError)
    (deleteAd : String → Option GoError) :
    CancelAllOrdersResponse × Option GoError × List String :=
  match getadsErr with
  | some e => ({ }, some e, [])
  | none =>
    let (status, attempts) := cancelLoop deleteAd adList
    ({ orderStatus := status }, none, attempts)

end LocalBitcoins

namespace HUOBIHADAX

/-- The `Data` part of a `CancelOpenOrdersBatch` response that
`CancelAllOrders` reads. -/
structure BatchCancelData where
  failedCount : Int
deriving DecidableEq, Repr

/-- The per-pair loop of `HUOBIHADAX.CancelAllOrders` (lines 711-720): on the
first `CancelOpenOrdersBatch` error, or the first response with
`FailedCount > 0`, the loop returns that error immediately and the remaining
pairs are not attempted.  Returns the overall error together with the trace
of pairs on which the batch cancel was called. -/
def cancelAllLoop (cancelBatch : String → Except GoError BatchCancelData) :
    List String → Option GoError × List String
  | [] => (none, [])
  | c :: rest =>
    match cancelBatch c with
    | .error e => (some e, [c])
    | .ok resp =>
      if resp.failedCount > 0 then
        (some (GoError.mk (toString resp.failedCount ++ " orders failed to cancel")), [c])
      else
        let (err, attempts) := cancelAllLoop cancelBatch rest
        (err, c :: attempts)

/-- `HUOBIHADAX.CancelAllOrders` (lines 707-723): iterates the enabled pairs,
never writes to the status map, and aborts with an error as soon as one
pair's batch cancellation fails. -/
def CancelAllOrders (enabledPairs : List String)
    (cancelBatch : String → Except GoError BatchCancelData) :
    CancelAllOrdersResponse × Option GoError × List String :=
  let (err, attempts) := cancelAllLoop cancelBatch enabledPairs
  ({ }, err, attempts)

end HUOBIHADAX

namespace HUOBIHADAX

/-- One entry of the `GetAccounts` response; `GetAccountID` only reads the
`ID` field of the first entry. -/
structure Account where
  id : Int
deriving DecidableEq, Repr

/-- The result of one `GetAccountID` call (lines 563-581): the returned
identifier or error, the driver's `AccountID` field after the call, and the
number of `GetAccounts` requests issued during the call.  The lock taken at
entry is the package-level `var mtx sync.Mutex` shared by every driver of
the package; the function never assigns `h.AccountID`, so the field after
the call always equals the field before it. -/
def GetAccountID (accountID : String)
    (getAccounts : Except GoError (List Account)) :
    Except GoError String × String × Nat :=
  if accountID = "" then
    match getAccounts with
    | .error e => (.error e, accountID, 1)
    | .ok acc =>
      match acc with
      | a :: _ => (.ok (toString a.id), accountID, 1)
      | [] => (.error (GoError.mk "no account ID fetched"), accountID, 1)
  else
    (.ok accountID, accountID, 0)

end HUOBIHADAX

namespace LocalBitcoins

/-- `LocalBitcoins.GetFundingHistory` (lines 211-214): returns the
`common.ErrFunctionNotSupported` sentinel. -/
def GetFundingHistory : List Unit × Option GoError :=
  ([], some GoError.errFunctionNotSupported)

/-- `LocalBitcoins.GetDepositAddress` (lines 329-331): returns the
`common.ErrNotYetImplemented` sentinel. -/
def GetDepositAddress (_cryptocurrency : String) : String × Option GoError :=
  ("", some GoError.errNotYetImplemented)

/-- `LocalBitcoins.WithdrawFiatFunds` (lines 341-343): returns the
`common.ErrNotYetImplemented` sentinel. -/
def WithdrawFiatFunds (_currency : String) (_amount : Rat) : String × Option GoError :=
  ("", some GoError.errNotYetImplemented)

/-- `LocalBitcoins.GetWebsocket` (lines 352-354): returns a nil pointer and
the `common.ErrNotYetImplemented` sentinel. -/
def GetWebsocket : Option Unit × Option GoError :=
  (none, some GoError.errNotYetImplemented)

end LocalBitcoins

/-- `common.StringToLower` (the `common` package is not under `src/`):
character-wise lowercasing of a string. -/
def stringToLower (s : String) : String :=
  { data := s.data.map Char.toLower }

/-- `exchange.Buy` order side (the underlying Go value is a string constant;
its exact spelling is immaterial, only distinctness matters). -/
def exchangeBuy : String := "BUY"

/-- `exchange.Sell` order side. -/
def exchangeSell : String := "SELL"

/-- `exchange.Market` order type. -/
def exchangeMarket : String := "MARKET"

/-- `exchange.Limit` order type. -/
def exchangeLimit : String := "LIMIT"

namespace HUOBIHADAX

/-- `SpotNewOrderRequestTypeBuyMarket` (a typed string constant of the huobi
package; the spelling stands in for the venue's order-type code). -/
def SpotNewOrderRequestTypeBuyMarket : String := "buy-market"

/-- `SpotNewOrderRequestTypeSellMarket`. -/
def SpotNewOrderRequestTypeSellMarket : String := "sell-market"

/-- `SpotNewOrderRequestTypeBuyLimit`. -/
def SpotNewOrderRequestTypeBuyLimit : String := "buy-limit"

/-- `SpotNewOrderRequestTypeSellLimit`. -/
def SpotNewOrderRequestTypeSellLimit : String := "sell-limit"

/-- `SpotNewOrderRequestParams` as `HUOBIHADAX.SubmitOrder` fills it in:
`Price` keeps its zero value for market orders and `Type` is assigned after
the struct literal (modelled by the `reqType` field). -/
structure SpotNewOrderRequestParams where
  amount : Rat
  source : String
  symbol : String
  accountID : Int
  price : Rat := 0
  reqType : String := ""
deriving DecidableEq, Repr

/-- The tail of `HUOBIHADAX.SubmitOrder` after the order-type dispatch
(lines 674-684): call `SpotNewOrder`, copy a positive order number into
`OrderID`, set the placed flag iff the call returned no error, and return
the `SpotNewOrder` error. -/
def submitTail (params : SpotNewOrderRequestParams)
    (spotNewOrder : SpotNewOrderRequestParams → Int × Option GoError) :
    SubmitOrderResponse × Option GoError × Option SpotNewOrderRequestParams :=
  let (response, err) := spotNewOrder params
  let resp : SubmitOrderResponse :=
    { orderID := if response > 0 then toString response else "",
      isOrderPlaced := err = none }
  (resp, err, some params)

/-- `HUOBIHADAX.SubmitOrder` (lines 647-685).  `parseClientID` is the result
of `strconv.ParseInt(clientID, 0, 64)`, which yields the value `0` together
with a syntax error when the client identifier is not numeric; the error
variable is then reassigned from the `SpotNewOrder` call.  `spotNewOrder`
gives the `SpotNewOrder` response (order number, error) for the request it
receives.  The third component of the result is the request that was passed
to `SpotNewOrder` (`none` when the unsupported-order-type return was
taken). -/
def SubmitOrder (p : CurrencyPair) (side orderType : String) (amount price : Rat)
    (parseClientID : Except GoError Int)
    (spotNewOrder : SpotNewOrderRequestParams → Int × Option GoError) :
    SubmitOrderResponse × Option GoError × Option SpotNewOrderRequestParams :=
  let accountID : Int := match parseClientID with | .ok v => v | .error _ => 0
  let params : SpotNewOrderRequestParams :=
    { amount := amount, source := "api",
      symbol := stringToLower (p.firstCurrency ++ p.secondCurrency),
      accountID := accountID }
  if side = exchangeBuy ∧ orderType = exchangeMarket then
    submitTail { params with reqType := SpotNewOrderRequestTypeBuyMarket } spotNewOrder
  else if side = exchangeSell ∧ orderType = exchangeMarket then
    submitTail { params with reqType := SpotNewOrderRequestTypeSellMarket } spotNewOrder
  else if side = exchangeBuy ∧ orderType = exchangeLimit then
    submitTail { params with reqType := SpotNewOrderRequestTypeBuyLimit, price := price } spotNewOrder
  else if side = exchangeSell ∧ orderType = exchangeLimit then
    submitTail { params with reqType := SpotNewOrderRequestTypeSellLimit, price := price } spotNewOrder
  else
    ({ }, some (GoError.mk "Unsupported order type"), none)

end HUOBIHADAX

/-- `ticker.Price`: the normalized ticker snapshot fields the wrappers set. -/
structure TickerPrice where
  pair : CurrencyPair := { firstCurrency := "", secondCurrency := "" }
  last : Rat := 0
  bid : Rat := 0
  ask : Rat := 0
  volume : Rat := 0
  high : Rat := 0
  low : Rat := 0
deriving DecidableEq, Repr

/-- The Market Data Cache key: (venue, trading pair, market type). -/
structure MarketKey where
  exchangeName : String
  pair : CurrencyPair
  assetType : String
deriving DecidableEq, Repr

/-- One stored ticker snapshot with its capture time (times are abstract
`Nat` instants). -/
structure TickerEntry where
  price : TickerPrice
  capturedAt : Nat
deriving DecidableEq, Repr

/-- The ticker store: newest entries are prepended, so a lookup sees the
latest write for its key (replace-on-write as observed through `GetTicker`). -/
structure TickerStore where
  entries : List (MarketKey × TickerEntry) := []
deriving DecidableEq, Repr

namespace ticker

/-- Modelled from the spec: the `ticker` package (`ticker.GetTicker`) is not
under `src/`, only its callers are.  Per §4.4, `get(key)` "returns the
current snapshot if present and not older than a staleness threshold";
otherwise the call fails and the wrapper refreshes.  `now` and `staleness`
are abstract instants/durations in `Nat`. -/
def GetTicker (store : TickerStore) (key : MarketKey) (now staleness : Nat) :
    Except GoError TickerPrice :=
  match store.entries.lookup key with
  | some e =>
    if now - e.capturedAt ≤ staleness then .ok e.price
    else .error (GoError.mk "ticker is stale")
  | none => .error (GoError.mk "no ticker found")

/-- Modelled from the spec: `ticker.ProcessTicker` is not under `src/`.  Per
§4.4, `put(key, snapshot)` "atomically replaces the prior snapshot";
prepending shadows any older entry for the key. -/
def ProcessTicker (store : TickerStore) (key : MarketKey) (tp : TickerPrice)
    (now : Nat) : TickerStore :=
  { entries := (key, { price := tp, capturedAt := now }) :: store.entries }

end ticker

namespace LocalBitcoins

/-- One entry of the venue `GetTicker()` response map: the fields the
wrapper reads (`Avg24h`, `VolumeBTC`). -/
structure LBTick where
  avg24h : Rat := 0
  volumeBTC : Rat := 0
deriving DecidableEq, Repr

/-- The ticker snapshot `LocalBitcoins.UpdateTicker` builds for an enabled
pair `x` from the venue response map (lines 142-145): `Last` from
`tick[currency].Avg24h` and `Volume` from `tick[currency].VolumeBTC`,
keyed by the pair's second currency. -/
def lbTickerFor (x : CurrencyPair) (venueTick : String → LBTick) : TickerPrice :=
  { pair := x,
    last := (venueTick x.secondCurrency).avg24h,
    volume := (venueTick x.secondCurrency).volumeBTC }

/-- The `ProcessTicker` loop of `LocalBitcoins.UpdateTicker` (lines 140-147):
every enabled pair's snapshot is stored. -/
def processAllTickers (name : String) (assetType : String)
    (venueTick : String → LBTick) (now : Nat)
    (store : TickerStore) (enabledPairs : List CurrencyPair) : TickerStore :=
  enabledPairs.foldl
    (fun s x =>
      ticker.ProcessTicker s { exchangeName := name, pair := x, assetType := assetType }
        (lbTickerFor x venueTick) now)
    store

/-- `LocalBitcoins.UpdateTicker` (lines 133-150): one venue `GetTicker()`
dispatch; on success every enabled pair's snapshot is processed into the
store and the ticker for the requested pair is read back.  The third
component counts the venue dispatches issued. -/
def UpdateTicker (name : String) (p : CurrencyPair) (assetType : String)
    (enabledPairs : List CurrencyPair)
    (venueResp : Except GoError (String → LBTick))
    (store : TickerStore) (now staleness : Nat) :
    Except GoError TickerPrice × TickerStore × Nat :=
  match venueResp with
  | .error e => (.error e, store, 1)
  | .ok venueTick =>
    let store2 := processAllTickers name assetType venueTick now store enabledPairs
    (ticker.GetTicker store2 { exchangeName := name, pair := p, assetType := assetType }
      now staleness, store2, 1)

/-- `LocalBitcoins.FetchTicker` (lines 153-159): return the cached ticker
when `ticker.GetTicker` succeeds, otherwise fall through to `UpdateTicker`. -/
def FetchTicker (name : String) (p : CurrencyPair) (assetType : String)
    (enabledPairs : List CurrencyPair)
    (venueResp : Except GoError (String → LBTick))
    (store : TickerStore) (now staleness : Nat) :
    Except GoError TickerPrice × TickerStore × Nat :=
  match ticker.GetTicker store { exchangeName := name, pair := p, assetType := assetType }
      now staleness with
  | .ok t => (.ok t, store, 0)
  | .error _ => UpdateTicker name p assetType enabledPairs venueResp store now staleness

end LocalBitcoins

namespace HUOBIHADAX

/-- The fields of the `GetMarketDetailMerged` venue response the wrapper
reads (lines 501-513). -/
structure MarketDetailMerged where
  low : Rat := 0
  high : Rat := 0
  close : Rat := 0
  volume : Rat := 0
  ask : List Rat := []
  bid : List Rat := []
deriving DecidableEq, Repr

/-- The ticker snapshot `HUOBIHADAX.UpdateTicker` builds (lines 501-513):
`Ask`/`Bid` keep their zero value when the venue lists are empty. -/
def huobiTickerFor (p : CurrencyPair) (tick : MarketDetailMerged) : TickerPrice :=
  { pair := p, low := tick.low, last := tick.close, volume := tick.volume,
    high := tick.high, ask := tick.ask.headD 0, bid := tick.bid.headD 0 }

/-- `HUOBIHADAX.UpdateTicker` (lines 494-517): one `GetMarketDetailMerged`
dispatch; on success the snapshot is processed and read back.  The third
component counts the venue dispatches issued. -/
def UpdateTicker (name : String) (p : CurrencyPair) (assetType : String)
    (venueResp : Except GoError MarketDetailMerged)
    (store : TickerStore) (now staleness : Nat) :
    Except GoError TickerPrice × TickerStore × Nat :=
  match venueResp with
  | .error e => (.error e, store, 1)
  | .ok tick =>
    let key : MarketKey := { exchangeName := name, pair := p, assetType := assetType }
    let store2 := ticker.ProcessTicker store key (huobiTickerFor p tick) now
    (ticker.GetTicker store2 key now staleness, store2, 1)

/-- `HUOBIHADAX.FetchTicker` (lines 520-526): return the cached ticker when
`ticker.GetTicker` succeeds, otherwise fall through to `UpdateTicker`. -/
def FetchTicker (name : String) (p : CurrencyPair) (assetType : String)
    (venueResp : Except GoError MarketDetailMerged)
    (store : TickerStore) (now staleness : Nat) :
    Except GoError TickerPrice × TickerStore × Nat :=
  match ticker.GetTicker store { exchangeName := name, pair := p, assetType := assetType }
      now staleness with
  | .ok t => (.ok t, store, 0)
  | .error _ => UpdateTicker name p assetType venueResp store now staleness

end HUOBIHADAX

/-- `orderbook.Item`: one price level. -/
structure OrderbookItem where
  amount : Rat
  price : Rat
deriving DecidableEq, Repr

/-- `orderbook.Base`: the normalized order-book snapshot. -/
structure OrderbookBase where
  bids : List OrderbookItem := []
  asks : List OrderbookItem := []
deriving DecidableEq, Repr

/-- The order-book store; like the ticker store, newest entries are
prepended so a lookup sees the latest write for its key. -/
structure OrderbookStore where
  entries : List (MarketKey × OrderbookBase) := []
deriving DecidableEq, Repr

namespace orderbook

/-- Modelled from the spec: the `orderbook` package (`orderbook.GetOrderbook`)
is not under `src/`, only its callers are.  Per §4.4, `get(key)` returns the
current snapshot if present, else the call fails (timestamps are dropped
here; the claims about order books do not involve staleness). -/
def GetOrderbook (store : OrderbookStore) (key : MarketKey) :
    Except GoError OrderbookBase :=
  match store.entries.lookup key with
  | some b => .ok b
  | none => .error (GoError.mk "no orderbook found")

/-- Modelled from the spec: `orderbook.ProcessOrderbook` is not under
`src/`.  Per §4.4, `put(key, snapshot)` "atomically replaces the prior
snapshot"; no reordering of the levels happens anywhere. -/
def ProcessOrderbook (store : OrderbookStore) (key : MarketKey)
    (b : OrderbookBase) : OrderbookStore :=
  { entries := (key, b) :: store.entries }

end orderbook

/-- The prices of a list of levels, in sequence. -/
def pricesOf (l : List OrderbookItem) : List Rat :=
  l.map (fun i => i.price)

/-- Executable check that a price sequence never increases. -/
def nonIncreasingPrices : List Rat → Bool
  | [] => true
  | [_] => true
  | a :: b :: rest => decide (b ≤ a) && nonIncreasingPrices (b :: rest)

/-- Executable check that a price sequence never decreases. -/
def nonDecreasingPrices : List Rat → Bool
  | [] => true
  | [_] => true
  | a :: b :: rest => decide (a ≤ b) && nonDecreasingPrices (b :: rest)

/-- Bid-side ordering invariant: non-increasing prices. -/
def bidsOrdered (l : List OrderbookItem) : Prop :=
  nonIncreasingPrices (pricesOf l) = true

/-- Ask-side ordering invariant: non-decreasing prices. -/
def asksOrdered (l : List OrderbookItem) : Prop :=
  nonDecreasingPrices (pricesOf l) = true

instance (l : List OrderbookItem) : Decidable (bidsOrdered l) :=
  inferInstanceAs (Decidable (nonIncreasingPrices (pricesOf l) = true))

instance (l : List OrderbookItem) : Decidable (asksOrdered l) :=
  inferInstanceAs (Decidable (nonDecreasingPrices (pricesOf l) = true))

namespace LocalBitcoins

/-- The level mapping of `LocalBitcoins.UpdateOrderbook` (lines 178-186):
each venue level keeps its price and has its amount divided by the price
(the division is exact on `Rat`; a zero price would make the Go float
amount infinite, which no claim depends on). -/
def mapLevels (venueLevels : List OrderbookItem) : List OrderbookItem :=
  venueLevels.map (fun d => { amount := d.amount / d.price, price := d.price })

/-- `LocalBitcoins.UpdateOrderbook` (lines 171-190): one `GetOrderbook`
venue dispatch; on success the mapped snapshot is processed into the store
and read back. -/
def UpdateOrderbook (name : String) (p : CurrencyPair) (assetType : String)
    (venueResp : Except GoError (List OrderbookItem × List OrderbookItem))
    (store : OrderbookStore) :
    Except GoError OrderbookBase × OrderbookStore :=
  match venueResp with
  | .error e => (.error e, store)
  | .ok (venueBids, venueAsks) =>
    let book : OrderbookBase := { bids := mapLevels venueBids, asks := mapLevels venueAsks }
    let key : MarketKey := { exchangeName := name, pair := p, assetType := assetType }
    let store2 := orderbook.ProcessOrderbook store key book
    (orderbook.GetOrderbook store2 key, store2)

end LocalBitcoins

namespace HUOBIHADAX

/-- The level mapping of `HUOBIHADAX.UpdateOrderbook` (lines 545-553): the
venue `GetDepth` rows are `[price, amount]` arrays, copied verbatim. -/
def mapLevels (venueLevels : List (Rat × Rat)) : List OrderbookItem :=
  venueLevels.map (fun d => { amount := d.2, price := d.1 })

/-- `HUOBIHADAX.UpdateOrderbook` (lines 538-557): one `GetDepth` venue
dispatch; on success the mapped snapshot is processed into the store and
read back. -/
def UpdateOrderbook (name : String) (p : CurrencyPair) (assetType : String)
    (venueResp : Except GoError (List (Rat × Rat) × List (Rat × Rat)))
    (store : OrderbookStore) :
    Except GoError OrderbookBase × OrderbookStore :=
  match venueResp with
  | .error e => (.error e, store)
  | .ok (venueBids, venueAsks) =>
    let book : OrderbookBase := { bids := mapLevels venueBids, asks := mapLevels venueAsks }
    let key : MarketKey := { exchangeName := name, pair := p, assetType := assetType }
    let store2 := orderbook.ProcessOrderbook store key book
    (orderbook.GetOrderbook store2 key, store2)

end HUOBIHADAX

/-- `exchange.FeeType` values used by the okex fee tests. -/
inductive FeeType where
  | cryptocurrencyTradeFee : FeeType
  | cryptocurrencyWithdrawalFee : FeeType
  | cyptocurrencyDepositFee : FeeType
  | internationalBankDepositFee : FeeType
  | internationalBankWithdrawalFee : FeeType
deriving DecidableEq, Repr

/-- `exchange.FeeBuilder` as `okex_test.go` constructs it. -/
structure FeeBuilder where
  amount : Rat
  delimiter : String := "-"
  feeType : FeeType
  firstCurrency : String
  secondCurrency : String
  isMaker : Bool := false
  purchasePrice : Rat
  currencyItem : String := "USD"
deriving DecidableEq, Repr

namespace OKEX

/-- Modelled from the spec: the okex `GetFee`/`calculateTradingFee` code is
not under `src/` (only `okex_test.go` is).  Per §4.3, the trade fee is the
base rate, reduced when `maker`, times `amount * price`, and 0 when
`price <= 0`.  The rates are the ones the test asserts: taker `0.0015`
(amount 1, price 1 gives `0.0015`) and maker `0.001`. -/
def calculateTradingFee (purchasePrice amount : Rat) (isMaker : Bool) : Rat :=
  let rate : Rat := if isMaker then 1 / 1000 else 15 / 10000
  if purchasePrice ≤ 0 then 0 else rate * amount * purchasePrice

/-- Modelled from the spec: per §4.3 the withdrawal fee is a flat per-currency
rate with unknown currencies giving 0, not an error.  `okex_test.go` asserts
`0.001` for LTC and 0 for an unknown currency. -/
def getWithdrawalFee (currency : String) : Rat :=
  if currency = "LTC" then 1 / 1000 else 0

/-- Modelled from the spec: the okex `GetFee` dispatcher is not under
`src/`.  Per §4.3 it is a deterministic table lookup over the fee category:
trade fee and withdrawal fee as above, deposit and bank-transfer fees 0, and
the contract "never errors; always returns a finite, non-negative number"
(negative intermediate values are reported as 0). -/
def GetFee (fb : FeeBuilder) : Rat × Option GoError :=
  let fee : Rat :=
    match fb.feeType with
    | .cryptocurrencyTradeFee => calculateTradingFee fb.purchasePrice fb.amount fb.isMaker
    | .cryptocurrencyWithdrawalFee => getWithdrawalFee fb.firstCurrency
    | _ => 0
  (if fee < 0 then 0 else fee, none)

end OKEX

namespace Fixtures

/-- Concrete submission parameters used by the concrete-input theorems:
a USD buy ad with rounded amount 10. -/
def params0 : LocalBitcoins.AdCreate :=
  { currency := "USD", msg := "BUY", minAmount := 10 }

/-- A listed ad whose data fields agree with `params0` on every compared
field; only the ad identifier varies. -/
def matchingAd (id : Int) : LocalBitcoins.AdData :=
  { priceEquation := "USD_in_AUD", lat := 1, lon := 1, city := "City",
    location := "Location", countryCode := "US", currency := "USD",
    accountInfo := "-", bankName := "Bank", smsVerficationRequired := true,
    trackMaxAmount := true, requireTrustedByAdvertiser := true,
    onlineProvider := "", tradeType := "", minAmount := "10", adID := id }

/-- A listed ad that differs from `params0` in its currency. -/
def otherAd : LocalBitcoins.AdData :=
  { matchingAd 3 with currency := "EUR" }

/-- A batch-cancel collaborator that rejects the first pair and accepts any
other. -/
def failFirstBatch : String → Except GoError HUOBIHADAX.BatchCancelData :=
  fun c => if c = "BTC-USD" then .error (GoError.mk "venue rejected")
           else .ok { failedCount := 0 }

/-- A `SpotNewOrder` collaborator returning order number 12345 and no
error, whatever the request. -/
def spotOk : HUOBIHADAX.SpotNewOrderRequestParams → Int × Option GoError :=
  fun _ => (12345, none)

/-- The fee builder of `setFeeBuilder` in `okex_test.go`: amount 1,
LTC/BTC, taker, purchase price 1. -/
def feeBuilder0 : FeeBuilder :=
  { amount := 1, feeType := .cryptocurrencyTradeFee, firstCurrency := "LTC",
    secondCurrency := "BTC", purchasePrice := 1 }

/-- The BTC/USD pair used by the cache theorems. -/
def pBTCUSD : CurrencyPair := { firstCurrency := "BTC", secondCurrency := "USD" }

/-- The cache key for `pBTCUSD` on the venue named "V". -/
def key0 : MarketKey := { exchangeName := "V", pair := pBTCUSD, assetType := "SPOT" }

/-- A cached ticker snapshot. -/
def tp0 : TickerPrice := { pair := pBTCUSD, last := 100 }

/-- A store holding `tp0` under `key0`, captured at instant 5. -/
def storeHit : TickerStore := { entries := [(key0, { price := tp0, capturedAt := 5 })] }

/-- A venue `GetTicker()` response map with data for the USD market. -/
def venueTick0 : String → LocalBitcoins.LBTick :=
  fun c => if c = "USD" then { avg24h := 123, volumeBTC := 45 } else { }

/-- A venue `GetMarketDetailMerged` response. -/
def tick0 : HUOBIHADAX.MarketDetailMerged :=
  { low := 1, high := 2, close := 3, volume := 4, ask := [5], bid := [6] }

/-- The LTC/BTC pair of the okex submit-order test. -/
def pLTCBTC : CurrencyPair := { firstCurrency := "LTC", secondCurrency := "BTC" }

/-- The request `HUOBIHADAX.SubmitOrder` builds for a buy-limit order on
`pLTCBTC` with amount 1 and price 10 when the client identifier fails to
parse (account identifier 0). -/
def paramsW : HUOBIHADAX.SpotNewOrderRequestParams :=
  { amount := 1, source := "api", symbol := "ltcbtc", accountID := 0, price := 10,
    reqType := HUOBIHADAX.SpotNewOrderRequestTypeBuyLimit }

end Fixtures

/-!
## Helper lemmas and sanity checks
-/

section Helpers

/-- `Nat.toDigitsCore` never shortens its accumulator. -/
theorem toDigitsCore_length_ge (b : Nat) :
    ∀ (f n : Nat) (ds : List Char), ds.length ≤ (Nat.toDigitsCore b f n ds).length := by
  intro f
  induction f with
  | zero => intro n ds; simp [Nat.toDigitsCore]
  | succ f ih =>
    intro n ds
    simp only [Nat.toDigitsCore]
    split
    · simp
    · exact le_trans (by simp) (ih (n / b) (Nat.digitChar (n % b) :: ds))

/-- The digit list of a natural number is never empty. -/
theorem toDigits_ne_nil (b n : Nat) : Nat.toDigits b n ≠ [] := by
  intro h
  have h1 : 1 ≤ (Nat.toDigits b n).length := by
    simp only [Nat.toDigits, Nat.toDigitsCore]
    split
    · simp
    · exact le_trans (by simp) (toDigitsCore_length_ge b n (n / b) [Nat.digitChar (n % b)])
  rw [h] at h1
  simp at h1

/-- The decimal representation of a natural number is never the empty
string. -/
theorem nat_repr_ne_empty (n : Nat) : Nat.repr n ≠ "" := by
  intro h
  have hdata := congrArg String.data h
  simp only [Nat.repr, List.asString] at hdata
  exact toDigits_ne_nil 10 n hdata

/-- The decimal representation of an integer is never the empty string, so
`fmt.Sprintf("%v", adID)` never collides with the empty-`adID` sentinel of
`LocalBitcoins.SubmitOrder`. -/
theorem int_toString_ne_empty (n : Int) : toString n ≠ "" := by
  cases n with
  | ofNat m =>
    intro h
    exact nat_repr_ne_empty m h
  | negSucc m =>
    intro h
    have h2 : ("-" ++ Nat.repr (m + 1) : String) = "" := h
    have hdata := congrArg String.data h2
    rw [String.data_append] at hdata
    simp at hdata

end Helpers

section Reconciliation

/-- The last listed ad matching the submitted parameters, if any. -/
def lastMatch (params : LocalBitcoins.AdCreate) (adList : List LocalBitcoins.AdData) :
    Option LocalBitcoins.AdData :=
  adList.reverse.find? (LocalBitcoins.adMatches params)

theorem resolveAdID_append_single (params : LocalBitcoins.AdCreate)
    (l : List LocalBitcoins.AdData) (a : LocalBitcoins.AdData) :
    LocalBitcoins.resolveAdID params (l ++ [a]) =
      if LocalBitcoins.adMatches params a then toString a.adID
      else LocalBitcoins.resolveAdID params l := by
  unfold LocalBitcoins.resolveAdID
  rw [List.foldl_append]
  simp

/-- The reconciliation loop resolves to the identifier of the last matching
ad, or to the empty string when no ad matches. -/
theorem resolveAdID_eq_lastMatch (params : LocalBitcoins.AdCreate)
    (adList : List LocalBitcoins.AdData) :
    LocalBitcoins.resolveAdID params adList =
      match lastMatch params adList with
      | some d => toString d.adID
      | none => "" := by
  induction adList using List.reverseRecOn with
  | nil => rfl
  | append_singleton l a ih =>
    rw [resolveAdID_append_single]
    unfold lastMatch
    rw [List.reverse_append]
    by_cases h : LocalBitcoins.adMatches params a
    · simp [h, List.find?]
    · rw [Bool.not_eq_true] at h
      simp [h, List.find?, lastMatch, ih]

end Reconciliation

/-!
## C1: order-placement reconciliation
-/

/-- C1 counterexample: two distinct listed ads both match the submitted
parameters field-by-field, yet `LocalBitcoins.SubmitOrder` resolves the
identifier of the last matching ad ("9") with no error at all, instead of
reporting a placement-ambiguous failure for the multi-match case. -/
theorem c1_counterexample_two_matches_resolve :
    LocalBitcoins.adMatches Fixtures.params0 (Fixtures.matchingAd 7) = true
    ∧ LocalBitcoins.adMatches Fixtures.params0 (Fixtures.matchingAd 9) = true
    ∧ Fixtures.matchingAd 7 ≠ Fixtures.matchingAd 9
    ∧ LocalBitcoins.SubmitOrder Fixtures.params0 none
        [Fixtures.matchingAd 7, Fixtures.matchingAd 9] none =
      ({ isOrderPlaced := true, orderID := "9" }, none) := by decide

/-- C1 (amended): after a successful `CreateAd`, `SubmitOrder` lists the
caller's own ads and matches them field-by-field; if zero candidates match
it reports the failure "Ad placed, but not found via API" with no resolved
identifier, and if one or more candidates match it resolves the identifier
of the last matching candidate (passing through any `Getads` error) — it
does not report an ambiguity failure for multiple matches. -/
theorem lb_submitOrder_last_match_resolution
    (params : LocalBitcoins.AdCreate) (adList : List LocalBitcoins.AdData)
    (getadsErr : Option GoError) :
    ((∀ d ∈ adList, LocalBitcoins.adMatches params d = false) →
      LocalBitcoins.SubmitOrder params none adList getadsErr =
        ({ isOrderPlaced := true, orderID := "" },
          some (GoError.mk "Ad placed, but not found via API")))
    ∧ (∀ d, lastMatch params adList = some d →
      LocalBitcoins.SubmitOrder params none adList getadsErr =
        ({ isOrderPlaced := true, orderID := toString d.adID }, getadsErr)) := by
  constructor
  · intro hnone
    have hlast : lastMatch params adList = none := by
      unfold lastMatch
      rw [List.find?_eq_none]
      intro a ha
      simp [hnone a (List.mem_reverse.mp ha)]
    have hres : LocalBitcoins.resolveAdID params adList = "" := by
      rw [resolveAdID_eq_lastMatch, hlast]
    unfold LocalBitcoins.SubmitOrder
    simp [hres]
  · intro d hd
    have hres : LocalBitcoins.resolveAdID params adList = toString d.adID := by
      rw [resolveAdID_eq_lastMatch, hd]
    unfold LocalBitcoins.SubmitOrder
    simp [hres, int_toString_ne_empty d.adID]

/-- Witness for the amended C1 theorem at concrete inputs: a single
non-matching ad yields the not-found failure; two matching ads yield the
last identifier with the `Getads` error passed through. -/
theorem lb_submitOrder_last_match_resolution_witness :
    LocalBitcoins.SubmitOrder Fixtures.params0 none [Fixtures.otherAd] none =
      ({ isOrderPlaced := true, orderID := "" },
        some (GoError.mk "Ad placed, but not found via API"))
    ∧ LocalBitcoins.SubmitOrder Fixtures.params0 none
        [Fixtures.matchingAd 7, Fixtures.matchingAd 9]
        (some (GoError.mk "listing hiccup")) =
      ({ isOrderPlaced := true, orderID := toString (9 : Int) },
        some (GoError.mk "listing hiccup")) :=
  ⟨(lb_submitOrder_last_match_resolution Fixtures.params0 [Fixtures.otherAd] none).1
      (by decide),
   (lb_submitOrder_last_match_resolution Fixtures.params0
      [Fixtures.matchingAd 7, Fixtures.matchingAd 9]
      (some (GoError.mk "listing hiccup"))).2 (Fixtures.matchingAd 9) (by decide)⟩

/-!
## C10: placed flag together with a non-nil error
-/

/-- C10: when `CreateAd` succeeds but no listed ad matches the submitted
parameters (in particular whenever the `Getads` listing fails and comes back
empty), the response still carries `IsOrderPlaced = true` while the returned
error is "Ad placed, but not found via API", whatever the underlying
`Getads` error was — a non-nil error does not imply the order was not
placed. -/
theorem lb_submitOrder_placed_despite_error
    (params : LocalBitcoins.AdCreate) (adList : List LocalBitcoins.AdData)
    (getadsErr : Option GoError)
    (h : ∀ d ∈ adList, LocalBitcoins.adMatches params d = false) :
    (LocalBitcoins.SubmitOrder params none adList getadsErr).1.isOrderPlaced = true
    ∧ (LocalBitcoins.SubmitOrder params none adList getadsErr).2 =
        some (GoError.mk "Ad placed, but not found via API") := by
  have hlast : lastMatch params adList = none := by
    unfold lastMatch
    rw [List.find?_eq_none]
    intro a ha
    simp [h a (List.mem_reverse.mp ha)]
  have hres : LocalBitcoins.resolveAdID params adList = "" := by
    rw [resolveAdID_eq_lastMatch, hlast]
  unfold LocalBitcoins.SubmitOrder
  simp [hres]

/-- Witness for the C10 theorem: the listing call fails (and returns no
ads), yet the placed flag is set and the fixed not-found error replaces the
listing error. -/
theorem lb_submitOrder_placed_despite_error_witness :
    (LocalBitcoins.SubmitOrder Fixtures.params0 none []
        (some (GoError.mk "api down"))).1.isOrderPlaced = true
    ∧ (LocalBitcoins.SubmitOrder Fixtures.params0 none []
        (some (GoError.mk "api down"))).2 =
      some (GoError.mk "Ad placed, but not found via API") :=
  lb_submitOrder_placed_despite_error Fixtures.params0 [] (some (GoError.mk "api down"))
    (by decide)

/-!
## C2: cancel-all partial-failure semantics
-/

/-- The LocalBitcoins cancellation loop attempts every listed ad and keeps
exactly the failures, in order, in the status map. -/
theorem cancelLoop_eq (deleteAd : String → Option GoError)
    (adList : List LocalBitcoins.AdData) :
    LocalBitcoins.cancelLoop deleteAd adList =
      (adList.filterMap (fun ad =>
          match deleteAd (toString ad.adID) with
          | some e => some (toString ad.adID, e.message)
          | none => none),
       adList.map (fun ad => toString ad.adID)) := by
  induction adList with
  | nil => rfl
  | cons a l ih =>
    simp only [LocalBitcoins.cancelLoop, ih, List.filterMap_cons, List.map_cons]
    cases deleteAd (toString a.adID) <;> simp

/-- C2 counterexample: `HUOBIHADAX.CancelAllOrders` over the two listed
pairs, where the first pair's batch cancellation fails, aborts immediately —
the second pair is never attempted (trace `["BTC-USD"]`), the failure is not
aggregated into the (empty) status map, and the overall call errors solely
because of that one failure. -/
theorem c2_counterexample_huobi_aborts :
    HUOBIHADAX.CancelAllOrders ["BTC-USD", "LTC-USD"] Fixtures.failFirstBatch =
      ({ orderStatus := [] }, some (GoError.mk "venue rejected"), ["BTC-USD"]) := by decide

/-- C2 (amended): `LocalBitcoins.CancelAllOrders` attempts every listed
entity independently, aggregates per-entity failures into the status map
keyed by entity identifier, and never errors because an entity failed to
cancel; `HUOBIHADAX.CancelAllOrders`, however, aborts at the first failing
pair, returns that failure as the overall error, and leaves the status map
empty. -/
theorem cancelAllOrders_partial_vs_abort :
    (∀ (adList : List LocalBitcoins.AdData) (deleteAd : String → Option GoError),
      LocalBitcoins.CancelAllOrders adList none deleteAd =
        ({ orderStatus := adList.filterMap (fun ad =>
              match deleteAd (toString ad.adID) with
              | some e => some (toString ad.adID, e.message)
              | none => none) },
          none,
          adList.map (fun ad => toString ad.adID)))
    ∧ (∀ (c : String) (rest : List String)
        (cancelBatch : String → Except GoError HUOBIHADAX.BatchCancelData) (e : GoError),
      cancelBatch c = .error e →
      HUOBIHADAX.CancelAllOrders (c :: rest) cancelBatch =
        ({ orderStatus := [] }, some e, [c])) := by
  constructor
  · intro adList deleteAd
    unfold LocalBitcoins.CancelAllOrders
    rw [cancelLoop_eq]
  · intro c rest cancelBatch e h
    unfold HUOBIHADAX.CancelAllOrders HUOBIHADAX.cancelAllLoop
    rw [h]

/-- Witness for the amended C2 theorem at concrete inputs: one failing ad
out of two is recorded in the map while both are attempted and no overall
error is returned; a failing first pair aborts the huobi loop. -/
theorem cancelAllOrders_partial_vs_abort_witness :
    LocalBitcoins.CancelAllOrders [Fixtures.matchingAd 7, Fixtures.matchingAd 9] none
        (fun s => if s = "7" then some (GoError.mk "nope") else none) =
      ({ orderStatus := [("7", "nope")] }, none, ["7", "9"])
    ∧ HUOBIHADAX.CancelAllOrders ["BTC-USD"] Fixtures.failFirstBatch =
        ({ orderStatus := [] }, some (GoError.mk "venue rejected"), ["BTC-USD"]) :=
  ⟨cancelAllOrders_partial_vs_abort.1 [Fixtures.matchingAd 7, Fixtures.matchingAd 9]
      (fun s => if s = "7" then some (GoError.mk "nope") else none),
   cancelAllOrders_partial_vs_abort.2 "BTC-USD" [] Fixtures.failFirstBatch
      (GoError.mk "venue rejected") (by rfl)⟩

/-!
## C3: account-identifier caching
-/

/-- C3 counterexample: with an empty `AccountID` field and a successful
`GetAccounts` response, `GetAccountID` returns the fetched identifier but
leaves the field empty (it is never assigned), so an immediately following
`GetAccountID` call issues another `GetAccounts` request instead of
returning a stored identifier.  (The guarding mutex is the package-level
`var mtx sync.Mutex`, not a per-driver field.) -/
theorem c3_counterexample_id_never_cached :
    HUOBIHADAX.GetAccountID "" (.ok [{ id := 69 }]) = (.ok "69", "", 1)
    ∧ (HUOBIHADAX.GetAccountID
        (HUOBIHADAX.GetAccountID "" (.ok [{ id := 69 }])).2.1
        (.ok [{ id := 69 }])).2.2 = 1 := by
  constructor
  · rfl
  · rfl

/-- C3 (amended): the account-identifier lookup is guarded by a
package-level mutex shared by all drivers of the package, and `GetAccountID`
never assigns the driver's `AccountID` field: the field after any call
equals the field before it, every call that finds the field empty issues a
`GetAccounts` request (including every repeat call), and only a field set by
other code is returned without a request. -/
theorem huobi_getAccountID_no_caching (accountID : String)
    (getAccounts : Except GoError (List HUOBIHADAX.Account)) :
    (HUOBIHADAX.GetAccountID accountID getAccounts).2.1 = accountID
    ∧ (accountID = "" → (HUOBIHADAX.GetAccountID accountID getAccounts).2.2 = 1)
    ∧ (accountID ≠ "" →
        HUOBIHADAX.GetAccountID accountID getAccounts = (.ok accountID, accountID, 0)) := by
  refine ⟨?_, ?_, ?_⟩
  · unfold HUOBIHADAX.GetAccountID
    split
    · cases getAccounts with
      | error e => rfl
      | ok acc => cases acc <;> rfl
    · rfl
  · intro h
    unfold HUOBIHADAX.GetAccountID
    rw [if_pos h]
    cases getAccounts with
    | error e => rfl
    | ok acc => cases acc <;> rfl
  · intro h
    unfold HUOBIHADAX.GetAccountID
    rw [if_neg h]

/-- Witness for the amended C3 theorem: a fresh driver issues a request and
keeps its field empty; a driver whose field was set elsewhere answers from
the field with no request. -/
theorem huobi_getAccountID_no_caching_witness :
    (HUOBIHADAX.GetAccountID "" (.ok [{ id := 69 }])).2.1 = ""
    ∧ (HUOBIHADAX.GetAccountID "" (.ok [{ id := 69 }])).2.2 = 1
    ∧ HUOBIHADAX.GetAccountID "42" (.ok [{ id := 69 }]) = (.ok "42", "42", 0) :=
  ⟨(huobi_getAccountID_no_caching "" (.ok [{ id := 69 }])).1,
   (huobi_getAccountID_no_caching "" (.ok [{ id := 69 }])).2.1 rfl,
   (huobi_getAccountID_no_caching "42" (.ok [{ id := 69 }])).2.2 (by decide)⟩

/-!
## C6: not-supported versus not-yet-implemented sentinels
-/

/-- C6 counterexample: the deposit-address lookup does not return the
function-not-supported sentinel — it returns the distinct
not-yet-implemented sentinel, a different error kind. -/
theorem c6_counterexample_deposit_address_sentinel :
    LocalBitcoins.GetDepositAddress "BTC" = ("", some GoError.errNotYetImplemented)
    ∧ GoError.errNotYetImplemented ≠ GoError.errFunctionNotSupported := by decide

/-- C6 (amended): funding history returns the `common.ErrFunctionNotSupported`
sentinel, while deposit-address lookup, fiat withdrawal and websocket
streaming return the `common.ErrNotYetImplemented` sentinel — each a named
sentinel rather than a generic failure, but two distinct error kinds, so not
every unsupported operation yields the not-supported outcome. -/
theorem lb_unsupported_operation_sentinels :
    LocalBitcoins.GetFundingHistory = ([], some GoError.errFunctionNotSupported)
    ∧ (∀ c, LocalBitcoins.GetDepositAddress c = ("", some GoError.errNotYetImplemented))
    ∧ (∀ c a, LocalBitcoins.WithdrawFiatFunds c a = ("", some GoError.errNotYetImplemented))
    ∧ LocalBitcoins.GetWebsocket = (none, some GoError.errNotYetImplemented)
    ∧ GoError.errNotYetImplemented ≠ GoError.errFunctionNotSupported :=
  ⟨rfl, fun _ => rfl, fun _ _ => rfl, rfl, by decide⟩

/-!
## C4: read-through ticker cache
-/

section TickerCache

theorem lookup_process_same (s : TickerStore) (k : MarketKey) (tp : TickerPrice)
    (now : Nat) : (ticker.ProcessTicker s k tp now).entries.lookup k =
      some { price := tp, capturedAt := now } := by
  simp [ticker.ProcessTicker, List.lookup]

theorem lookup_process_other (s : TickerStore) (k k' : MarketKey) (tp : TickerPrice)
    (now : Nat) (h : k' ≠ k) :
    (ticker.ProcessTicker s k tp now).entries.lookup k' = s.entries.lookup k' := by
  have hb : (k' == k) = false := beq_eq_false_iff_ne.mpr h
  simp [ticker.ProcessTicker, List.lookup, hb]

/-- A snapshot written at the current instant is fresh, so `GetTicker` reads
it straight back. -/
theorem getTicker_after_process (s : TickerStore) (k : MarketKey) (tp : TickerPrice)
    (now staleness : Nat) :
    ticker.GetTicker (ticker.ProcessTicker s k tp now) k now staleness = .ok tp := by
  unfold ticker.GetTicker
  rw [lookup_process_same]
  simp

/-- Processing tickers for pairs other than `p` does not disturb the entry
at `p`'s key. -/
theorem lb_processAll_lookup_of_not_mem (name assetType : String)
    (venueTick : String → LocalBitcoins.LBTick) (now : Nat) (p : CurrencyPair) :
    ∀ (pairs : List CurrencyPair) (store : TickerStore), p ∉ pairs →
      (LocalBitcoins.processAllTickers name assetType venueTick now store pairs).entries.lookup
          { exchangeName := name, pair := p, assetType := assetType } =
        store.entries.lookup { exchangeName := name, pair := p, assetType := assetType } := by
  intro pairs
  induction pairs with
  | nil => intro store _; rfl
  | cons x rest ih =>
    intro store hmem
    have hx : p ≠ x := fun hpx => hmem (hpx ▸ List.mem_cons_self x rest)
    have hrest : p ∉ rest := fun hr => hmem (List.mem_cons_of_mem x hr)
    have hkey : ({ exchangeName := name, pair := p, assetType := assetType } : MarketKey) ≠
        { exchangeName := name, pair := x, assetType := assetType } := by
      intro hk
      exact hx (congrArg MarketKey.pair hk)
    calc (LocalBitcoins.processAllTickers name assetType venueTick now store
            (x :: rest)).entries.lookup
          { exchangeName := name, pair := p, assetType := assetType }
        = (LocalBitcoins.processAllTickers name assetType venueTick now
            (ticker.ProcessTicker store
              { exchangeName := name, pair := x, assetType := assetType }
              (LocalBitcoins.lbTickerFor x venueTick) now) rest).entries.lookup
          { exchangeName := name, pair := p, assetType := assetType } := rfl
      _ = (ticker.ProcessTicker store
            { exchangeName := name, pair := x, assetType := assetType }
            (LocalBitcoins.lbTickerFor x venueTick) now).entries.lookup
          { exchangeName := name, pair := p, assetType := assetType } := ih _ hrest
      _ = store.entries.lookup { exchangeName := name, pair := p, assetType := assetType } :=
          lookup_process_other _ _ _ _ _ hkey

/-- After the `UpdateTicker` loop every enabled pair's entry holds the
snapshot built from the venue response, captured at the current instant. -/
theorem lb_processAll_lookup_of_mem (name assetType : String)
    (venueTick : String → LocalBitcoins.LBTick) (now : Nat) (p : CurrencyPair) :
    ∀ (pairs : List CurrencyPair) (store : TickerStore), p ∈ pairs →
      (LocalBitcoins.processAllTickers name assetType venueTick now store pairs).entries.lookup
          { exchangeName := name, pair := p, assetType := assetType } =
        some { price := LocalBitcoins.lbTickerFor p venueTick, capturedAt := now } := by
  intro pairs
  induction pairs with
  | nil => intro store h; cases h
  | cons x rest ih =>
    intro store hmem
    by_cases hrest : p ∈ rest
    · exact ih _ hrest
    · have hpx : p = x := by
        rcases List.mem_cons.mp hmem with h | h
        · exact h
        · exact absurd h hrest
      subst hpx
      have step : (LocalBitcoins.processAllTickers name assetType venueTick now store
          (p :: rest)) = LocalBitcoins.processAllTickers name assetType venueTick now
          (ticker.ProcessTicker store
            { exchangeName := name, pair := p, assetType := assetType }
            (LocalBitcoins.lbTickerFor p venueTick) now) rest := rfl
      rw [step, lb_processAll_lookup_of_not_mem name assetType venueTick now p rest _ hrest,
        lookup_process_same]

end TickerCache

/-- C4: `FetchTicker` reads through the Market Data Cache.  When a cached
snapshot exists and is within the staleness threshold it is returned with no
dispatch and an unchanged store; on a cache miss (or stale entry) exactly
one venue dispatch is issued, the refreshed snapshot is stored at the
current instant and returned (for LocalBitcoins, provided the requested
pair is among the enabled pairs the batch refresh covers).  The cache
(`ticker.GetTicker`/`ProcessTicker`) is modelled from spec §4.4 since the
`ticker` package is not under `src/`. -/
theorem fetchTicker_read_through
    (name : String) (p : CurrencyPair) (assetType : String)
    (enabledPairs : List CurrencyPair)
    (venueTick : String → LocalBitcoins.LBTick)
    (tick : HUOBIHADAX.MarketDetailMerged)
    (store : TickerStore) (now staleness : Nat) :
    (∀ t, ticker.GetTicker store
        { exchangeName := name, pair := p, assetType := assetType } now staleness = .ok t →
      LocalBitcoins.FetchTicker name p assetType enabledPairs (.ok venueTick)
          store now staleness = (.ok t, store, 0)
      ∧ HUOBIHADAX.FetchTicker name p assetType (.ok tick) store now staleness =
          (.ok t, store, 0))
    ∧ (∀ e, ticker.GetTicker store
        { exchangeName := name, pair := p, assetType := assetType } now staleness = .error e →
      (p ∈ enabledPairs →
        LocalBitcoins.FetchTicker name p assetType enabledPairs (.ok venueTick)
            store now staleness =
          (.ok (LocalBitcoins.lbTickerFor p venueTick),
            LocalBitcoins.processAllTickers name assetType venueTick now store enabledPairs,
            1))
      ∧ HUOBIHADAX.FetchTicker name p assetType (.ok tick) store now staleness =
          (.ok (HUOBIHADAX.huobiTickerFor p tick),
            ticker.ProcessTicker store
              { exchangeName := name, pair := p, assetType := assetType }
              (HUOBIHADAX.huobiTickerFor p tick) now,
            1)) := by
  constructor
  · intro t ht
    constructor
    · unfold LocalBitcoins.FetchTicker
      rw [ht]
    · unfold HUOBIHADAX.FetchTicker
      rw [ht]
  · intro e he
    constructor
    · intro hmem
      have hfresh : ticker.GetTicker
          (LocalBitcoins.processAllTickers name assetType venueTick now store enabledPairs)
          { exchangeName := name, pair := p, assetType := assetType } now staleness =
          .ok (LocalBitcoins.lbTickerFor p venueTick) := by
        unfold ticker.GetTicker
        rw [lb_processAll_lookup_of_mem name assetType venueTick now p enabledPairs store hmem]
        simp
      unfold LocalBitcoins.FetchTicker LocalBitcoins.UpdateTicker
      rw [he]
      dsimp only
      rw [hfresh]
    · unfold HUOBIHADAX.FetchTicker HUOBIHADAX.UpdateTicker
      rw [he]
      dsimp only
      rw [getTicker_after_process]

/-- Witness for the C4 theorem: a fresh cached snapshot is returned with no
dispatch; on an empty store both drivers dispatch once and return the
freshly refreshed snapshot. -/
theorem fetchTicker_read_through_witness :
    LocalBitcoins.FetchTicker "V" Fixtures.pBTCUSD "SPOT" [Fixtures.pBTCUSD]
        (.ok Fixtures.venueTick0) Fixtures.storeHit 5 10 =
      (.ok Fixtures.tp0, Fixtures.storeHit, 0)
    ∧ HUOBIHADAX.FetchTicker "V" Fixtures.pBTCUSD "SPOT" (.ok Fixtures.tick0)
        Fixtures.storeHit 5 10 = (.ok Fixtures.tp0, Fixtures.storeHit, 0)
    ∧ LocalBitcoins.FetchTicker "V" Fixtures.pBTCUSD "SPOT" [Fixtures.pBTCUSD]
        (.ok Fixtures.venueTick0) { } 5 10 =
      (.ok (LocalBitcoins.lbTickerFor Fixtures.pBTCUSD Fixtures.venueTick0),
        LocalBitcoins.processAllTickers "V" "SPOT" Fixtures.venueTick0 5 { }
          [Fixtures.pBTCUSD],
        1)
    ∧ HUOBIHADAX.FetchTicker "V" Fixtures.pBTCUSD "SPOT" (.ok Fixtures.tick0) { } 5 10 =
      (.ok (HUOBIHADAX.huobiTickerFor Fixtures.pBTCUSD Fixtures.tick0),
        ticker.ProcessTicker { } Fixtures.key0
          (HUOBIHADAX.huobiTickerFor Fixtures.pBTCUSD Fixtures.tick0) 5,
        1) :=
  ⟨((fetchTicker_read_through "V" Fixtures.pBTCUSD "SPOT" [Fixtures.pBTCUSD]
      Fixtures.venueTick0 Fixtures.tick0 Fixtures.storeHit 5 10).1 Fixtures.tp0 (by rfl)).1,
   ((fetchTicker_read_through "V" Fixtures.pBTCUSD "SPOT" [Fixtures.pBTCUSD]
      Fixtures.venueTick0 Fixtures.tick0 Fixtures.storeHit 5 10).1 Fixtures.tp0 (by rfl)).2,
   ((fetchTicker_read_through "V" Fixtures.pBTCUSD "SPOT" [Fixtures.pBTCUSD]
      Fixtures.venueTick0 Fixtures.tick0 { } 5 10).2 (GoError.mk "no ticker found")
      (by rfl)).1 (by simp),
   ((fetchTicker_read_through "V" Fixtures.pBTCUSD "SPOT" [Fixtures.pBTCUSD]
      Fixtures.venueTick0 Fixtures.tick0 { } 5 10).2 (GoError.mk "no ticker found")
      (by rfl)).2⟩

/-!
## C5: order-book ordering invariant
-/

/-- C5 counterexample: a venue response whose bid prices ascend (1 then 5)
yields an `UpdateOrderbook` snapshot whose bid prices also ascend — the
wrapper copies the venue's level order verbatim, so the produced snapshot
violates the non-increasing-bids invariant. -/
theorem c5_counterexample_unsorted_venue_bids :
    (LocalBitcoins.UpdateOrderbook "V" Fixtures.pBTCUSD "SPOT"
        (.ok ([{ amount := 2, price := 1 }, { amount := 2, price := 5 }], [])) { }).1 =
      .ok { bids := [{ amount := 2, price := 1 }, { amount := 2 / 5, price := 5 }],
            asks := [] }
    ∧ ¬ bidsOrdered [{ amount := 2, price := 1 }, { amount := (2 : Rat) / 5, price := 5 }] := by
  constructor
  · unfold LocalBitcoins.UpdateOrderbook LocalBitcoins.mapLevels orderbook.ProcessOrderbook
      orderbook.GetOrderbook
    simp [List.lookup]
  · decide

/-- The LocalBitcoins level mapping keeps every price unchanged and in
order. -/
theorem lb_mapLevels_prices (venueLevels : List OrderbookItem) :
    pricesOf (LocalBitcoins.mapLevels venueLevels) = pricesOf venueLevels := by
  unfold pricesOf LocalBitcoins.mapLevels
  rw [List.map_map]
  rfl

/-- The huobi level mapping turns each `[price, amount]` row into a level
with that price, in order. -/
theorem huobi_mapLevels_prices (venueLevels : List (Rat × Rat)) :
    pricesOf (HUOBIHADAX.mapLevels venueLevels) = venueLevels.map (fun d => d.1) := by
  unfold pricesOf HUOBIHADAX.mapLevels
  rw [List.map_map]
  rfl

/-- C5 (amended): `UpdateOrderbook` (both drivers) copies the venue
response's levels in order, leaving every price unchanged, so the produced
snapshot satisfies the bid/ask ordering invariant exactly when the venue
response's own price sequences do — the invariant is inherited, not
established. -/
theorem updateOrderbook_preserves_venue_order
    (name : String) (p : CurrencyPair) (assetType : String) (store : OrderbookStore)
    (venueBids venueAsks : List OrderbookItem)
    (huobiBids huobiAsks : List (Rat × Rat)) :
    ((LocalBitcoins.UpdateOrderbook name p assetType (.ok (venueBids, venueAsks)) store).1 =
      .ok { bids := LocalBitcoins.mapLevels venueBids,
            asks := LocalBitcoins.mapLevels venueAsks })
    ∧ pricesOf (LocalBitcoins.mapLevels venueBids) = pricesOf venueBids
    ∧ (bidsOrdered venueBids → bidsOrdered (LocalBitcoins.mapLevels venueBids))
    ∧ (asksOrdered venueAsks → asksOrdered (LocalBitcoins.mapLevels venueAsks))
    ∧ ((HUOBIHADAX.UpdateOrderbook name p assetType (.ok (huobiBids, huobiAsks)) store).1 =
      .ok { bids := HUOBIHADAX.mapLevels huobiBids,
            asks := HUOBIHADAX.mapLevels huobiAsks })
    ∧ pricesOf (HUOBIHADAX.mapLevels huobiBids) = huobiBids.map (fun d => d.1)
    ∧ (nonIncreasingPrices (huobiBids.map (fun d => d.1)) = true →
        bidsOrdered (HUOBIHADAX.mapLevels huobiBids))
    ∧ (nonDecreasingPrices (huobiAsks.map (fun d => d.1)) = true →
        asksOrdered (HUOBIHADAX.mapLevels huobiAsks)) := by
  refine ⟨?_, lb_mapLevels_prices venueBids, ?_, ?_, ?_, huobi_mapLevels_prices huobiBids,
    ?_, ?_⟩
  · unfold LocalBitcoins.UpdateOrderbook orderbook.ProcessOrderbook orderbook.GetOrderbook
    simp [List.lookup]
  · intro h
    unfold bidsOrdered
    rw [lb_mapLevels_prices]
    exact h
  · intro h
    unfold asksOrdered
    rw [lb_mapLevels_prices]
    exact h
  · unfold HUOBIHADAX.UpdateOrderbook orderbook.ProcessOrderbook orderbook.GetOrderbook
    simp [List.lookup]
  · intro h
    unfold bidsOrdered
    rw [huobi_mapLevels_prices]
    exact h
  · intro h
    unfold asksOrdered
    rw [huobi_mapLevels_prices]
    exact h

/-- Witness for the amended C5 theorem: an ordered venue book (bids 5 then
1, asks 1 then 5) maps to an ordered snapshot with the same prices. -/
theorem updateOrderbook_preserves_venue_order_witness :
    (LocalBitcoins.UpdateOrderbook "V" Fixtures.pBTCUSD "SPOT"
        (.ok ([{ amount := 10, price := 5 }, { amount := 2, price := 1 }],
              [{ amount := 3, price := 6 }, { amount := 4, price := 8 }])) { }).1 =
      .ok { bids := LocalBitcoins.mapLevels
              [{ amount := 10, price := 5 }, { amount := 2, price := 1 }],
            asks := LocalBitcoins.mapLevels
              [{ amount := 3, price := 6 }, { amount := 4, price := 8 }] }
    ∧ bidsOrdered (LocalBitcoins.mapLevels
        [{ amount := 10, price := 5 }, { amount := 2, price := 1 }])
    ∧ asksOrdered (LocalBitcoins.mapLevels
        [{ amount := 3, price := 6 }, { amount := 4, price := 8 }]) :=
  ⟨(updateOrderbook_preserves_venue_order "V" Fixtures.pBTCUSD "SPOT" { }
      [{ amount := 10, price := 5 }, { amount := 2, price := 1 }]
      [{ amount := 3, price := 6 }, { amount := 4, price := 8 }] [] []).1,
   (updateOrderbook_preserves_venue_order "V" Fixtures.pBTCUSD "SPOT" { }
      [{ amount := 10, price := 5 }, { amount := 2, price := 1 }]
      [{ amount := 3, price := 6 }, { amount := 4, price := 8 }] [] []).2.2.1 (by decide),
   (updateOrderbook_preserves_venue_order "V" Fixtures.pBTCUSD "SPOT" { }
      [{ amount := 10, price := 5 }, { amount := 2, price := 1 }]
      [{ amount := 3, price := 6 }, { amount := 4, price := 8 }] [] []).2.2.2.1 (by decide)⟩

/-!
## C7 and C8: the fee engine
-/

section FeeSanity

example : OKEX.GetFee Fixtures.feeBuilder0 = (15 / 10000, none) := by
  norm_num [OKEX.GetFee, OKEX.calculateTradingFee, Fixtures.feeBuilder0]

example :
    OKEX.GetFee { Fixtures.feeBuilder0 with amount := 1000, purchasePrice := 1000 } =
      (1500, none) := by
  norm_num [OKEX.GetFee, OKEX.calculateTradingFee, Fixtures.feeBuilder0]

example : OKEX.GetFee { Fixtures.feeBuilder0 with isMaker := true } = (1 / 1000, none) := by
  norm_num [OKEX.GetFee, OKEX.calculateTradingFee, Fixtures.feeBuilder0]

example : OKEX.GetFee { Fixtures.feeBuilder0 with purchasePrice := -1000 } = (0, none) := by
  simp [OKEX.GetFee, OKEX.calculateTradingFee, Fixtures.feeBuilder0]

example :
    OKEX.GetFee { Fixtures.feeBuilder0 with feeType := .cryptocurrencyWithdrawalFee } =
      (1 / 1000, none) := by
  norm_num [OKEX.GetFee, OKEX.getWithdrawalFee, Fixtures.feeBuilder0]

example :
    OKEX.GetFee
        { Fixtures.feeBuilder0 with
          feeType := .cryptocurrencyWithdrawalFee, firstCurrency := "hello" } =
      (0, none) := by
  simp [OKEX.GetFee, OKEX.getWithdrawalFee, Fixtures.feeBuilder0]

example :
    OKEX.GetFee { Fixtures.feeBuilder0 with feeType := .cyptocurrencyDepositFee } =
      (0, none) := by
  simp [OKEX.GetFee, Fixtures.feeBuilder0]

example :
    OKEX.GetFee { Fixtures.feeBuilder0 with feeType := .internationalBankDepositFee } =
      (0, none) := by
  simp [OKEX.GetFee, Fixtures.feeBuilder0]

example :
    OKEX.GetFee { Fixtures.feeBuilder0 with feeType := .internationalBankWithdrawalFee } =
      (0, none) := by
  simp [OKEX.GetFee, Fixtures.feeBuilder0]

end FeeSanity

/-- C7: a trade-fee request with non-positive purchase price yields fee
exactly 0 and no error, whatever the amount and maker flag. -/
theorem getFee_zero_for_nonpositive_price (fb : FeeBuilder)
    (hcat : fb.feeType = .cryptocurrencyTradeFee) (hp : fb.purchasePrice ≤ 0) :
    OKEX.GetFee fb = (0, none) := by
  unfold OKEX.GetFee OKEX.calculateTradingFee
  rw [hcat]
  simp [hp]

/-- Witness for the C7 theorem at the test's concrete input: amount 1000,
purchase price -1000 give fee 0. -/
theorem getFee_zero_for_nonpositive_price_witness :
    OKEX.GetFee { Fixtures.feeBuilder0 with amount := 1000, purchasePrice := -1000 } =
      (0, none) :=
  getFee_zero_for_nonpositive_price
    { Fixtures.feeBuilder0 with amount := 1000, purchasePrice := -1000 } rfl (by norm_num)

/-- The trade fee formula at each maker flag. -/
theorem calculateTradingFee_eq (pp a : Rat) :
    OKEX.calculateTradingFee pp a true =
      (if pp ≤ 0 then 0 else (1 / 1000 : Rat) * a * pp)
    ∧ OKEX.calculateTradingFee pp a false =
      (if pp ≤ 0 then 0 else (15 / 10000 : Rat) * a * pp) := by
  unfold OKEX.calculateTradingFee
  constructor <;> simp

/-- The clamped trade fee of a maker never exceeds that of a taker on the
same amount and price. -/
theorem clampedTradingFee_maker_le (pp a : Rat) :
    (if OKEX.calculateTradingFee pp a true < 0 then 0
      else OKEX.calculateTradingFee pp a true) ≤
    (if OKEX.calculateTradingFee pp a false < 0 then 0
      else OKEX.calculateTradingFee pp a false) := by
  rw [(calculateTradingFee_eq pp a).1, (calculateTradingFee_eq pp a).2]
  by_cases hp : pp ≤ 0
  · simp [hp]
  · simp only [hp, if_false]
    rcases le_or_lt 0 (a * pp) with hn | hn
    · have h1 : (1 / 1000 : Rat) * a * pp ≤ (15 / 10000 : Rat) * a * pp := by nlinarith
      have h2 : 0 ≤ (1 / 1000 : Rat) * a * pp := by nlinarith
      have h3 : 0 ≤ (15 / 10000 : Rat) * a * pp := by nlinarith
      rw [if_neg (not_lt.mpr h2), if_neg (not_lt.mpr h3)]
      exact h1
    · have h2 : (1 / 1000 : Rat) * a * pp < 0 := by nlinarith
      have h3 : (15 / 10000 : Rat) * a * pp < 0 := by nlinarith
      rw [if_pos h2, if_pos h3]

/-- C8: `GetFee` never errors, its result is non-negative (and, being a
rational, finite), and on the same amount and purchase price the maker fee
never exceeds the taker fee. -/
theorem getFee_total_nonneg_maker_le_taker (fb : FeeBuilder) :
    (OKEX.GetFee fb).2 = none
    ∧ 0 ≤ (OKEX.GetFee fb).1
    ∧ (OKEX.GetFee { fb with isMaker := true }).1 ≤
        (OKEX.GetFee { fb with isMaker := false }).1 := by
  refine ⟨rfl, ?_, ?_⟩
  · unfold OKEX.GetFee
    dsimp only
    split
    · exact le_refl 0
    · exact not_lt.mp (by assumption)
  · unfold OKEX.GetFee
    dsimp only
    cases fb.feeType
    case cryptocurrencyTradeFee =>
      exact clampedTradingFee_maker_le fb.purchasePrice fb.amount
    all_goals exact le_refl _

/-!
## C9: the swallowed client-identifier parse error
-/

/-- The components of the shared `SubmitOrder` tail: the returned error is
exactly the `SpotNewOrder` error and the recorded request is the one that
was passed in. -/
theorem submitTail_components (P : HUOBIHADAX.SpotNewOrderRequestParams)
    (f : HUOBIHADAX.SpotNewOrderRequestParams → Int × Option GoError) :
    (HUOBIHADAX.submitTail P f).2.1 = (f P).2
    ∧ (HUOBIHADAX.submitTail P f).2.2 = some P := by
  unfold HUOBIHADAX.submitTail
  cases f P
  exact ⟨rfl, rfl⟩

/-- C9: when the client identifier fails to parse, `HUOBIHADAX.SubmitOrder`
behaves exactly as if the parse had returned 0 — the request is built with
account identifier 0 and the parse error is never returned, because the
error variable is overwritten by the `SpotNewOrder` result (or by the
unsupported-order-type error). -/
theorem huobi_submitOrder_ignores_parse_error
    (p : CurrencyPair) (side orderType : String) (amount price : Rat) (e : GoError)
    (spotNewOrder : HUOBIHADAX.SpotNewOrderRequestParams → Int × Option GoError) :
    HUOBIHADAX.SubmitOrder p side orderType amount price (.error e) spotNewOrder =
      HUOBIHADAX.SubmitOrder p side orderType amount price (.ok 0) spotNewOrder
    ∧ (∀ ps, (HUOBIHADAX.SubmitOrder p side orderType amount price (.error e)
        spotNewOrder).2.2 = some ps →
      ps.accountID = 0
      ∧ (HUOBIHADAX.SubmitOrder p side orderType amount price (.error e)
          spotNewOrder).2.1 = (spotNewOrder ps).2) := by
  constructor
  · rfl
  · intro ps hps
    unfold HUOBIHADAX.SubmitOrder at hps ⊢
    dsimp only at hps ⊢
    split_ifs at hps ⊢ with h1 h2 h3 h4
    · rw [(submitTail_components _ spotNewOrder).2] at hps
      injection hps with hps
      subst hps
      exact ⟨rfl, (submitTail_components _ spotNewOrder).1⟩
    · rw [(submitTail_components _ spotNewOrder).2] at hps
      injection hps with hps
      subst hps
      exact ⟨rfl, (submitTail_components _ spotNewOrder).1⟩
    · rw [(submitTail_components _ spotNewOrder).2] at hps
      injection hps with hps
      subst hps
      exact ⟨rfl, (submitTail_components _ spotNewOrder).1⟩
    · rw [(submitTail_components _ spotNewOrder).2] at hps
      injection hps with hps
      subst hps
      exact ⟨rfl, (submitTail_components _ spotNewOrder).1⟩

/-- Witness for the C9 theorem: a non-numeric client identifier on a
buy-limit order runs identically to a parsed identifier 0; the request
passed to `SpotNewOrder` carries account identifier 0 and the returned
error is the (absent) `SpotNewOrder` error, not the parse error. -/
theorem huobi_submitOrder_ignores_parse_error_witness :
    HUOBIHADAX.SubmitOrder Fixtures.pLTCBTC exchangeBuy exchangeLimit 1 10
        (.error (GoError.mk "invalid syntax")) Fixtures.spotOk =
      HUOBIHADAX.SubmitOrder Fixtures.pLTCBTC exchangeBuy exchangeLimit 1 10
        (.ok 0) Fixtures.spotOk
    ∧ Fixtures.paramsW.accountID = 0
    ∧ (HUOBIHADAX.SubmitOrder Fixtures.pLTCBTC exchangeBuy exchangeLimit 1 10
        (.error (GoError.mk "invalid syntax")) Fixtures.spotOk).2.1 =
      (Fixtures.spotOk Fixtures.paramsW).2 :=
  ⟨(huobi_submitOrder_ignores_parse_error Fixtures.pLTCBTC exchangeBuy exchangeLimit 1 10
      (GoError.mk "invalid syntax") Fixtures.spotOk).1,
   ((huobi_submitOrder_ignores_parse_error Fixtures.pLTCBTC exchangeBuy exchangeLimit 1 10
      (GoError.mk "invalid syntax") Fixtures.spotOk).2 Fixtures.paramsW (by decide)).1,
   ((huobi_submitOrder_ignores_parse_error Fixtures.pLTCBTC exchangeBuy exchangeLimit 1 10
      (GoError.mk "invalid syntax") Fixtures.spotOk).2 Fixtures.paramsW (by decide)).2⟩
